import Mathlib

/-!
Verification of `data_extractor/extractor.py` (class `MSISDNRequestExtractor`).

The Python code is shallowly embedded: JSON values become the inductive
type `Json`, Python dicts become ordered association lists (Python dicts
preserve insertion order), Python `None` inside a JSON tree is `Json.null`,
optional values (`Optional[...]`) become `Option`, and the exceptions the
code can raise and catch are made explicit with `Except`.  Network I/O is
modelled by an oracle `net : String → Option Json` giving, for each msisdn,
the outcome of the HTTP round trip (`none` = any caught transport/JSON
failure).
-/

set_option autoImplicit false

namespace Extractor

/-- JSON-like values as handled by the Python code.  Numbers are modelled
as integers (the extracted fields are ids and pins; no float arithmetic is
performed on them). -/
inductive Json where
  | null
  | bool (b : Bool)
  | num (n : Int)
  | str (s : String)
  | arr (elems : List Json)
  | obj (fields : List (String × Json))
deriving Repr

/-- Python truthiness (`if json_data:` in `extract_data`): `None`, `False`,
`0`, `""`, `[]` and `{}` are falsy, everything else is truthy. -/
def truthy : Json → Bool
  | .null => false
  | .bool b => b
  | .num n => n != 0
  | .str s => !s.isEmpty
  | .arr elems => !elems.isEmpty
  | .obj fields => !fields.isEmpty

/-- Python `dict.get(key, None)` / `dict.get(key)`: the first binding of
`key`, or `None` (`Json.null`) when the key is absent. -/
def dictGet (fields : List (String × Json)) (key : String) : Json :=
  match fields.find? (fun p => p.1 == key) with
  | some p => p.2
  | none => Json.null

/-- Python `str.split(sep)` for a single-character separator, on the
character list of the string: split at every occurrence of `sep`; the
empty string yields `[[]]` (one empty piece), matching
`''.split('.') == ['']`. -/
def pySplitAux (sep : Char) : List Char → List (List Char)
  | [] => [[]]
  | c :: rest =>
      match pySplitAux sep rest with
      | [] => [[]]
      | piece :: pieces =>
          if c == sep then [] :: piece :: pieces
          else (c :: piece) :: pieces

/-- Python `key_path.split('.')` as called in `get_nested_value`. -/
def pySplit (s : String) (sep : Char) : List String :=
  (pySplitAux sep s.data).map (fun piece => String.mk piece)

/-- The `for part in parts` loop inside `get_nested_value`, with the
exceptions it can raise made explicit: on a list node with segment
`accountInternalId` the code runs `current[0].get(part, None)`, which
raises `IndexError` on an empty list and `AttributeError` when element 0
is not a dict; both are modelled as `Except.error ()`.  A list node with
any other segment, or a non-dict non-list node, makes the function
`return None` (`Except.ok Json.null`). -/
def walkPath : Json → List String → Except Unit Json
  | current, [] => .ok current
  | .arr elems, part :: rest =>
      if part = "accountInternalId" then
        match elems with
        | [] => .error ()
        | first :: _ =>
            match first with
            | .obj fields => walkPath (dictGet fields part) rest
            | _ => .error ()
      else
        .ok Json.null
  | .obj fields, part :: rest => walkPath (dictGet fields part) rest
  | _, _ :: _ => .ok Json.null

/-- `get_nested_value(obj, key_path)`: split the path on `'.'`, walk the
tree, and turn any raised exception into `None` (the `except Exception:
return None` handler). -/
def get_nested_value (obj : Json) (key_path : String) : Json :=
  match walkPath obj (pySplit key_path '.') with
  | .ok v => v
  | .error _ => Json.null

/-- Python `result[key] = value` on an insertion-ordered dict: update the
binding in place if `key` is present (keys are unique in a Python dict, so
at most one binding can match), otherwise append a new binding at the
end. -/
def dictInsert : List (String × Json) → String → Json → List (String × Json)
  | [], key, v => [(key, v)]
  | p :: rest, key, v =>
      if p.1 == key then (key, v) :: rest else p :: dictInsert rest key v

/-- Reading a field of a result row (`row[key]` as an observation):
`none` when the field is absent. -/
def rowGet : List (String × Json) → String → Option Json
  | [], _ => none
  | p :: rest, key => if p.1 == key then some p.2 else rowGet rest key

/-- `extract_data(json_data, keys, msisdn)`: start from
`{'msisdn': msisdn}`; if `json_data` is truthy, bind each key path to its
extracted value, otherwise bind each key path to `None`. -/
def extract_data (json_data : Option Json) (keys : List String)
    (msisdn : String) : List (String × Json) :=
  let result := [("msisdn", Json.str msisdn)]
  match json_data with
  | some j =>
      if truthy j then
        keys.foldl (fun row key => dictInsert row key (get_nested_value j key)) result
      else
        keys.foldl (fun row key => dictInsert row key Json.null) result
  | none =>
      keys.foldl (fun row key => dictInsert row key Json.null) result

/-- Inclusive code-point ranges of the characters Python's per-character
`str.isdigit` test accepts: the Unicode character database's characters
of `Numeric_Type` Decimal (category Nd) or Digit (superscripts, circled
digits, …), as enumerated by CPython 3.11. -/
def pyDigitRanges : List (Nat × Nat) :=
  [(48, 57), (178, 179), (185, 185), (1632, 1641), (1776, 1785), (1984,
  1993), (2406, 2415), (2534, 2543), (2662, 2671), (2790, 2799), (2918,
  2927), (3046, 3055), (3174, 3183), (3302, 3311), (3430, 3439), (3558,
  3567), (3664, 3673), (3792, 3801), (3872, 3881), (4160, 4169), (4240,
  4249), (4969, 4977), (6112, 6121), (6160, 6169), (6470, 6479), (6608,
  6618), (6784, 6793), (6800, 6809), (6992, 7001), (7088, 7097), (7232,
  7241), (7248, 7257), (8304, 8304), (8308, 8313), (8320, 8329), (9312,
  9320), (9332, 9340), (9352, 9360), (9450, 9450), (9461, 9469), (9471,
  9471), (10102, 10110), (10112, 10120), (10122, 10130), (42528, 42537),
  (43216, 43225), (43264, 43273), (43472, 43481), (43504, 43513), (43600,
  43609), (44016, 44025), (65296, 65305), (66720, 66729), (68160, 68163),
  (68912, 68921), (69216, 69224), (69714, 69722), (69734, 69743), (69872,
  69881), (69942, 69951), (70096, 70105), (70384, 70393), (70736, 70745),
  (70864, 70873), (71248, 71257), (71360, 71369), (71472, 71481), (71904,
  71913), (72016, 72025), (72784, 72793), (73040, 73049), (73120, 73129),
  (92768, 92777), (92864, 92873), (93008, 93017), (120782, 120831), (123200,
  123209), (123632, 123641), (125264, 125273), (127232, 127242), (130032,
  130041)]

/-- Python's per-character `str.isdigit` test. -/
def pyDigitChar (c : Char) : Bool :=
  pyDigitRanges.any (fun r => decide (r.1 ≤ c.toNat) && decide (c.toNat ≤ r.2))

/-- Inclusive code-point ranges of the decimal digits proper: Unicode
category Nd, the characters Python's per-character `str.isdecimal` test
accepts (a strict subset of `pyDigitRanges`: e.g. the superscript `'²'`
is digit-typed but not a decimal digit). -/
def pyDecimalRanges : List (Nat × Nat) :=
  [(48, 57), (1632, 1641), (1776, 1785), (1984, 1993), (2406, 2415), (2534,
  2543), (2662, 2671), (2790, 2799), (2918, 2927), (3046, 3055), (3174,
  3183), (3302, 3311), (3430, 3439), (3558, 3567), (3664, 3673), (3792,
  3801), (3872, 3881), (4160, 4169), (4240, 4249), (6112, 6121), (6160,
  6169), (6470, 6479), (6608, 6617), (6784, 6793), (6800, 6809), (6992,
  7001), (7088, 7097), (7232, 7241), (7248, 7257), (42528, 42537), (43216,
  43225), (43264, 43273), (43472, 43481), (43504, 43513), (43600, 43609),
  (44016, 44025), (65296, 65305), (66720, 66729), (68912, 68921), (69734,
  69743), (69872, 69881), (69942, 69951), (70096, 70105), (70384, 70393),
  (70736, 70745), (70864, 70873), (71248, 71257), (71360, 71369), (71472,
  71481), (71904, 71913), (72016, 72025), (72784, 72793), (73040, 73049),
  (73120, 73129), (92768, 92777), (92864, 92873), (93008, 93017), (120782,
  120831), (123200, 123209), (123632, 123641), (125264, 125273), (130032,
  130041)]

/-- Decimal digit in the Unicode sense (category Nd, Python
`str.isdecimal`). -/
def pyDecimalChar (c : Char) : Bool :=
  pyDecimalRanges.any (fun r => decide (r.1 ≤ c.toNat) && decide (c.toNat ≤ r.2))

/-- Python `str.isdigit()` (the filter the code applies to MSISDN
strings): true iff the string is non-empty and every character passes the
per-character digit test. -/
def pyIsdigit (s : String) : Bool :=
  !s.data.isEmpty && s.data.all pyDigitChar

/-- Code points Python's `str.isspace` accepts (the characters `str.strip`
removes): ASCII whitespace and separators `\x1c`–`\x1f`, `\x85`, NBSP,
and the Unicode space/line/paragraph separators. -/
def pySpaceCodes : List Nat :=
  [9, 10, 11, 12, 13, 28, 29, 30, 31, 32, 133, 160, 5760, 8192, 8193, 8194,
  8195, 8196, 8197, 8198, 8199, 8200, 8201, 8202, 8232, 8233, 8239, 8287,
  12288]

/-- Python's per-character `str.isspace` test. -/
def pySpaceChar (c : Char) : Bool :=
  pySpaceCodes.contains c.toNat

/-- Python `str.strip()` (as applied by `pandas.Series.str.strip`): drop
whitespace characters from both ends. -/
def pyStrip (s : String) : String :=
  String.mk (((s.data.dropWhile pySpaceChar).reverse.dropWhile
    pySpaceChar).reverse)

/-- Python `str.rstrip(chars)`: drop trailing characters belonging to
`chars`. -/
def pyRstrip (s : String) (chars : List Char) : String :=
  String.mk ((s.data.reverse.dropWhile (fun c => chars.contains c)).reverse)

/-- Python `str.startswith(p)`: the first `len(p)` characters equal `p`. -/
def pyStartswith (s pre : String) : Bool :=
  pre.data.isPrefixOf s.data

/-- `make_request(msisdn)` with the network abstracted by an oracle
`net : String → Option Json` (the outcome of the whole `try` block:
`some json` on a 2xx response with a JSON body, `none` for every caught
exception).  The result pairs the returned value with a flag recording
whether the network was consulted: an empty or non-digit msisdn is
rejected up front (`return None`) without touching the session. -/
def make_request (net : String → Option Json) (msisdn : String) :
    Option Json × Bool :=
  if msisdn.data.isEmpty || !pyIsdigit msisdn then
    (none, false)
  else
    (net msisdn, true)

/-- Errors `read_msisdns` can raise (all `ValueError` in the source; the
constructors keep them apart). -/
inductive ReadError where
  | configuration
  | unsupportedFormat
  | schema
  | noData
deriving Repr, DecidableEq

/-- The value-filtering core of `read_msisdns` (lines 71–75), applied to
the already-loaded identifier column: `cells` is the column content with
each cell rendered as a string (`astype(str)`); each value is stripped,
non-digit values are dropped, and an empty survivor list raises
`ValueError("No valid MSISDNs found in the file")`. -/
def read_msisdns (cells : List String) : Except ReadError (List String) :=
  let msisdns := cells.map pyStrip
  let valid_msisdns := msisdns.filter pyIsdigit
  if valid_msisdns.isEmpty then .error .noData else .ok valid_msisdns

/-- The per-identifier loop of `process_all_msisdns`: for each msisdn, in
order, fetch then extract, appending each row to the result list.  File
reading and writing around the loop are abstracted away (the msisdn list
is the reader's output). -/
def process_all_msisdns (net : String → Option Json) (msisdns : List String)
    (keys_to_extract : List String) : List (List (String × Json)) :=
  msisdns.map (fun m => extract_data (make_request net m).1 keys_to_extract m)

/-- Result of `urllib.parse.urlparse` restricted to the two components the
code inspects. -/
structure UrlParts where
  scheme : String
  netloc : String
deriving Repr, DecidableEq

/-- Characters allowed in a URL scheme after the first (Python
`scheme_chars`). -/
def schemeChar (c : Char) : Bool :=
  c.isAlphanum || c == '+' || c == '-' || c == '.'

/-- Split a character list at its first `':'` (Python `url.find(':')`):
`some (text before, text after)` when a colon occurs, `none` otherwise. -/
def splitAtColon : List Char → Option (List Char × List Char)
  | [] => none
  | c :: rest =>
      if c == ':' then some ([], rest)
      else
        match splitAtColon rest with
        | some (pre, post) => some (c :: pre, post)
        | none => none

/-- Model of `urllib.parse.urlparse`, the two fields the code uses: the
scheme is the lowercased text before the first `':'` when that text is
non-empty, starts with an ASCII letter and uses only scheme characters;
the netloc is the text after a leading `"//"` of the remainder, up to the
next `'/'`, `'?'` or `'#'`. -/
def urlparse (url : String) : UrlParts :=
  let cs := url.data
  let schemeRest : String × List Char :=
    match splitAtColon cs with
    | some (pre, post) =>
        if !pre.isEmpty && (pre.headD ' ').isAlpha && pre.all schemeChar then
          (String.mk (pre.map Char.toLower), post)
        else
          ("", cs)
    | none => ("", cs)
  let netloc : String :=
    match schemeRest.2 with
    | '/' :: '/' :: rest =>
        String.mk (rest.takeWhile (fun c => !(c == '/' || c == '?' || c == '#')))
    | _ => ""
  ⟨schemeRest.1, netloc⟩

/-- `_validate_url(url)`: strip trailing `'&'`/`'?'`, require a non-empty
scheme and netloc and an `"http://"`/`"https://"` start, and return the
stripped URL; `Except.error ()` stands for the raised `ValueError`. -/
def validate_url (url : String) : Except Unit String :=
  let u := pyRstrip url ['&', '?']
  let parsed := urlparse u
  if parsed.scheme.isEmpty || parsed.netloc.isEmpty then
    .error ()
  else if !(pyStartswith u "http://" || pyStartswith u "https://") then
    .error ()
  else
    .ok u

/-- The retry configuration built in `_configure_session`
(`urllib3.Retry(total=3, backoff_factor=1, status_forcelist=[500, 502,
503, 504], allowed_methods=["GET", "HEAD", "OPTIONS"])`). -/
structure RetryStrategy where
  total : Nat
  backoff_factor : Nat
  status_forcelist : List Nat
  allowed_methods : List String
deriving Repr

/-- The concrete strategy the session mounts for http and https. -/
def retry_strategy : RetryStrategy :=
  { total := 3
    backoff_factor := 1
    status_forcelist := [500, 502, 503, 504]
    allowed_methods := ["GET", "HEAD", "OPTIONS"] }

/-- Modelled from urllib3 `Retry` semantics: a response is retried exactly
when the request method is in `allowed_methods` and the status code is in
`status_forcelist`. -/
def isRetryable (cfg : RetryStrategy) (method : String) (status : Nat) : Bool :=
  cfg.allowed_methods.contains method && cfg.status_forcelist.contains status

/-- Modelled from urllib3 `Retry` semantics: the retry loop.  `statuses k`
is the status code the server returns to attempt `k` (attempt 0 is the
original request); `fuel` is the number of retries still allowed
(`Retry.total`).  Returns (number of retries performed, final status). -/
def retryLoop (cfg : RetryStrategy) (method : String) (statuses : Nat → Nat) :
    Nat → Nat → Nat × Nat
  | 0, attempt => (attempt, statuses attempt)
  | fuel + 1, attempt =>
      if isRetryable cfg method (statuses attempt) then
        retryLoop cfg method statuses fuel (attempt + 1)
      else
        (attempt, statuses attempt)

/-- One request issued through the configured session: run the retry loop
with `cfg.total` retries available. -/
def performRequest (cfg : RetryStrategy) (method : String)
    (statuses : Nat → Nat) : Nat × Nat :=
  retryLoop cfg method statuses cfg.total 0

/-- Modelled from urllib3 `Retry.get_backoff_time`: the sleep before the
`i+1`-st retry is `backoff_factor * 2 ^ i`. -/
def backoffSchedule (cfg : RetryStrategy) : List Nat :=
  (List.range cfg.total).map (fun i => cfg.backoff_factor * 2 ^ i)

/-- The idempotent HTTP methods (RFC 9110 §9.2.2). -/
def idempotentMethods : List String :=
  ["GET", "HEAD", "OPTIONS", "PUT", "DELETE"]

/-! Helper lemmas about rows (association lists built by `dictInsert`). -/

theorem rowGet_dictInsert_self (row : List (String × Json)) (k : String) (v : Json) :
    rowGet (dictInsert row k v) k = some v := by
  induction row with
  | nil => simp [dictInsert, rowGet]
  | cons p rest ih =>
      by_cases h : p.1 = k
      · simp [dictInsert, rowGet, h]
      · simp only [dictInsert, rowGet, beq_iff_eq, h, if_false, ih]

theorem rowGet_dictInsert_ne (row : List (String × Json)) (k k' : String)
    (v : Json) (h : k' ≠ k) :
    rowGet (dictInsert row k v) k' = rowGet row k' := by
  induction row with
  | nil => simp [dictInsert, rowGet, Ne.symm h]
  | cons p rest ih =>
      by_cases hp : p.1 = k
      · simp [dictInsert, rowGet, hp, Ne.symm h]
      · simp only [dictInsert, rowGet, beq_iff_eq, hp, if_false]
        by_cases hp' : p.1 = k'
        · simp [hp']
        · simp [hp', ih]

theorem dictInsert_of_rowGet_none (row : List (String × Json)) (k : String)
    (v : Json) (h : rowGet row k = none) :
    dictInsert row k v = row ++ [(k, v)] := by
  induction row with
  | nil => simp [dictInsert]
  | cons p rest ih =>
      by_cases hp : p.1 = k
      · simp [rowGet, hp] at h
      · simp only [rowGet, beq_iff_eq, hp, if_false] at h
        simp [dictInsert, hp, ih h]

theorem rowGet_append (r1 r2 : List (String × Json)) (k : String) :
    rowGet (r1 ++ r2) k = ((rowGet r1 k).orElse (fun _ => rowGet r2 k)) := by
  induction r1 with
  | nil => simp [rowGet]
  | cons p rest ih =>
      by_cases hp : p.1 = k
      · simp [rowGet, hp]
      · simp [rowGet, hp, ih]

theorem foldl_dictInsert_not_mem (f : String → Json) (keys : List String) :
    ∀ (row : List (String × Json)) (k : String), k ∉ keys →
      rowGet (keys.foldl (fun r kk => dictInsert r kk (f kk)) row) k = rowGet row k := by
  induction keys with
  | nil => intro row k _; rfl
  | cons kk ks ih =>
      intro row k hk
      have h1 : k ≠ kk := fun h => hk (h ▸ List.mem_cons_self kk ks)
      have h2 : k ∉ ks := fun h => hk (List.mem_cons_of_mem kk h)
      simp only [List.foldl_cons]
      rw [ih _ k h2, rowGet_dictInsert_ne _ _ _ _ h1]

theorem foldl_dictInsert_mem (f : String → Json) (keys : List String) :
    ∀ (row : List (String × Json)) (k : String), k ∈ keys →
      rowGet (keys.foldl (fun r kk => dictInsert r kk (f kk)) row) k = some (f k) := by
  induction keys with
  | nil => intro row k hk; cases hk
  | cons kk ks ih =>
      intro row k hk
      by_cases hks : k ∈ ks
      · simpa only [List.foldl_cons] using ih _ k hks
      · have hkk : k = kk := by
          rcases List.mem_cons.mp hk with h | h
          · exact h
          · exact absurd h hks
        subst hkk
        simp only [List.foldl_cons]
        rw [foldl_dictInsert_not_mem f ks _ k hks, rowGet_dictInsert_self]

theorem foldl_dictInsert_fst (f : String → Json) (keys : List String) :
    ∀ (row : List (String × Json)), keys.Nodup →
      (∀ k ∈ keys, rowGet row k = none) →
      (keys.foldl (fun r kk => dictInsert r kk (f kk)) row).map Prod.fst
        = row.map Prod.fst ++ keys := by
  induction keys with
  | nil => intro row _ _; simp
  | cons kk ks ih =>
      intro row hnd hfresh
      have hkk : rowGet row kk = none := hfresh kk (List.mem_cons_self kk ks)
      have hnd' : ks.Nodup := (List.nodup_cons.mp hnd).2
      have hkkks : kk ∉ ks := (List.nodup_cons.mp hnd).1
      simp only [List.foldl_cons]
      rw [dictInsert_of_rowGet_none _ _ _ hkk]
      have hfresh' : ∀ k ∈ ks, rowGet (row ++ [(kk, f kk)]) k = none := by
        intro k hkks
        rw [rowGet_append]
        have h1 : rowGet row k = none := hfresh k (List.mem_cons_of_mem kk hkks)
        have h2 : k ≠ kk := fun h => hkkks (h ▸ hkks)
        simp [h1, rowGet, Ne.symm h2]
      rw [ih _ hnd' hfresh']
      simp

theorem rowGet_extract_msisdn (json_data : Option Json) (keys : List String)
    (msisdn : String) (h : "msisdn" ∉ keys) :
    rowGet (extract_data json_data keys msisdn) "msisdn" = some (Json.str msisdn) := by
  have hinit : rowGet [("msisdn", Json.str msisdn)] "msisdn"
      = some (Json.str msisdn) := by simp [rowGet]
  cases json_data with
  | none => simpa [extract_data, foldl_dictInsert_not_mem (fun _ => Json.null) keys _ _ h]
  | some j =>
      by_cases ht : truthy j = true
      · simpa [extract_data, ht,
          foldl_dictInsert_not_mem (fun k => get_nested_value j k) keys _ _ h]
      · simpa [extract_data, ht,
          foldl_dictInsert_not_mem (fun _ => Json.null) keys _ _ h]

/-! Claim theorems. -/

/-- C1: when a key-path traversal reaches an array node, the segment
`accountInternalId` takes element 0 and looks the field up on it (an empty
array or a missing field yields null — the empty array raises, which the
handler turns into null), any other segment resolves to null immediately,
and the concrete `accounts.accountInternalId` example extracts `"123"`. -/
theorem c1_array_special_case :
    (∀ (elems : List Json) (part : String) (rest : List String),
        part ≠ "accountInternalId" →
        walkPath (Json.arr elems) (part :: rest) = .ok Json.null) ∧
    (∀ (fields : List (String × Json)) (elems : List Json) (rest : List String),
        walkPath (Json.arr (Json.obj fields :: elems)) ("accountInternalId" :: rest)
          = walkPath (dictGet fields "accountInternalId") rest) ∧
    (∀ rest : List String,
        walkPath (Json.arr []) ("accountInternalId" :: rest) = .error ()) ∧
    get_nested_value (Json.arr []) "accountInternalId" = Json.null ∧
    (∀ (fields : List (String × Json)) (k : String),
        fields.find? (fun p => p.1 == k) = none → dictGet fields k = Json.null) ∧
    extract_data
        (some (Json.obj [("accounts", Json.arr [Json.obj [("accountInternalId", Json.str "123")]])]))
        ["accounts.accountInternalId"] "X"
      = [("msisdn", Json.str "X"), ("accounts.accountInternalId", Json.str "123")] := by
  refine ⟨?_, fun _ _ _ => rfl, fun _ => rfl, rfl, ?_, rfl⟩
  · intro elems part rest h
    simp [walkPath, h]
  · intro fields k h
    simp [dictGet, h]

/-- Witness for C1 at concrete inputs: the segment `items` on an array
resolves to null, and a missing field reads as null. -/
theorem c1_witness :
    walkPath (Json.arr [Json.num 7]) ["items"] = .ok Json.null ∧
    dictGet [("a", Json.num 1)] "b" = Json.null :=
  ⟨c1_array_special_case.1 [Json.num 7] "items" [] (by decide),
   c1_array_special_case.2.2.2.2.1 [("a", Json.num 1)] "b" rfl⟩

/-- C2 fails as stated: with `keys = ["msisdn"]` (a legal non-empty key
path list) the loop overwrites the `msisdn` field with null, so the row's
`msisdn` field is not the identifier. -/
theorem c2_counterexample :
    extract_data none ["msisdn"] "X" = [("msisdn", Json.null)] ∧
    Json.null ≠ Json.str "X" :=
  ⟨rfl, fun h => nomatch h⟩

/-- C2 amended: provided `"msisdn"` is not itself one of the requested key
paths, extracting from an absent response gives a row whose `msisdn` field
is the identifier and in which every requested key path maps to null. -/
theorem c2_absent_response (id : String) (keys : List String)
    (h : "msisdn" ∉ keys) :
    rowGet (extract_data none keys id) "msisdn" = some (Json.str id) ∧
    ∀ k ∈ keys, rowGet (extract_data none keys id) k = some Json.null := by
  refine ⟨rowGet_extract_msisdn none keys id h, ?_⟩
  intro k hk
  simpa [extract_data] using
    foldl_dictInsert_mem (fun _ => Json.null) keys [("msisdn", Json.str id)] k hk

/-- Witness for C2 at a concrete input. -/
theorem c2_witness :
    rowGet (extract_data none ["a"] "X") "msisdn" = some (Json.str "X") ∧
    rowGet (extract_data none ["a"] "X") "a" = some Json.null :=
  ⟨(c2_absent_response "X" ["a"] (by decide)).1,
   (c2_absent_response "X" ["a"] (by decide)).2 "a" (by decide)⟩

/-- C6 fails as stated: with the key path `"msisdn"` the row has 1 field,
not `1 + 1`. -/
theorem c6_counterexample :
    ¬ ((extract_data (some (Json.obj [("x", Json.num 1)])) ["msisdn"] "X").length
        = 1 + (["msisdn"] : List String).length) := by
  rw [show extract_data (some (Json.obj [("x", Json.num 1)])) ["msisdn"] "X"
      = [("msisdn", Json.null)] from rfl]
  decide

/-- C6 amended: provided the key paths are pairwise distinct and none of
them is the literal `"msisdn"`, the row's fields are exactly `msisdn`
followed by each requested key path under its own literal name, `1 +
len(keys)` fields in all, for every response. -/
theorem c6_row_shape (json_data : Option Json) (keys : List String)
    (msisdn : String) (hnd : keys.Nodup) (hm : "msisdn" ∉ keys) :
    (extract_data json_data keys msisdn).map Prod.fst = "msisdn" :: keys ∧
    (extract_data json_data keys msisdn).length = 1 + keys.length := by
  have hfresh : ∀ k ∈ keys, rowGet [("msisdn", Json.str msisdn)] k = none := by
    intro k hk
    have hne : k ≠ "msisdn" := fun h => hm (h ▸ hk)
    simp [rowGet, Ne.symm hne]
  have hmap : (extract_data json_data keys msisdn).map Prod.fst = "msisdn" :: keys := by
    cases json_data with
    | none =>
        simpa [extract_data] using
          foldl_dictInsert_fst (fun _ => Json.null) keys _ hnd hfresh
    | some j =>
        by_cases ht : truthy j = true
        · simpa [extract_data, ht] using
            foldl_dictInsert_fst (fun k => get_nested_value j k) keys _ hnd hfresh
        · simpa [extract_data, ht] using
            foldl_dictInsert_fst (fun _ => Json.null) keys _ hnd hfresh
  refine ⟨hmap, ?_⟩
  have hlen := congrArg List.length hmap
  simp only [List.length_map, List.length_cons] at hlen
  omega

/-- Witness for C6 at a concrete input. -/
theorem c6_witness :
    (extract_data (some (Json.obj [("a", Json.num 1)])) ["a", "b"] "X").map Prod.fst
      = "msisdn" :: ["a", "b"] :=
  (c6_row_shape (some (Json.obj [("a", Json.num 1)])) ["a", "b"] "X"
    (by decide) (by decide)).1

/-- C7: traversal never propagates an error — every walk either succeeds
or the caught exception is turned into null (`get_nested_value` returns
the walked value or null), descending into any non-object non-array node
with segments left yields null, and the concrete `a.b.c` example maps to
null. -/
theorem c7_traversal_absorbs_errors :
    (∀ (part : String) (rest : List String),
        walkPath Json.null (part :: rest) = .ok Json.null) ∧
    (∀ (b : Bool) (part : String) (rest : List String),
        walkPath (Json.bool b) (part :: rest) = .ok Json.null) ∧
    (∀ (n : Int) (part : String) (rest : List String),
        walkPath (Json.num n) (part :: rest) = .ok Json.null) ∧
    (∀ (s : String) (part : String) (rest : List String),
        walkPath (Json.str s) (part :: rest) = .ok Json.null) ∧
    (∀ (obj : Json) (kp : String),
        get_nested_value obj kp = Json.null ∨
          walkPath obj (pySplit kp '.') = .ok (get_nested_value obj kp)) ∧
    extract_data (some (Json.obj [("a", Json.obj [("b", Json.num 5)])])) ["a.b.c"] "X"
      = [("msisdn", Json.str "X"), ("a.b.c", Json.null)] := by
  refine ⟨fun _ _ => rfl, fun _ _ _ => rfl, fun _ _ _ => rfl, fun _ _ _ => rfl, ?_, rfl⟩
  intro obj kp
  cases h : walkPath obj (pySplit kp '.') with
  | ok v => right; simp [get_nested_value, h]
  | error e => left; simp [get_nested_value, h]

/-- C10: a present-but-falsy response (`{}`, `[]`, `0`, `""`, `False`)
takes the same all-null branch as an absent response, producing the
identical row. -/
theorem c10_falsy_response (id : String) (keys : List String) :
    extract_data (some (Json.obj [])) keys id = extract_data none keys id ∧
    extract_data (some (Json.arr [])) keys id = extract_data none keys id ∧
    extract_data (some (Json.num 0)) keys id = extract_data none keys id ∧
    extract_data (some (Json.str "")) keys id = extract_data none keys id ∧
    extract_data (some (Json.bool false)) keys id = extract_data none keys id :=
  ⟨rfl, rfl, rfl, rfl, rfl⟩

/-- C4 fails as stated: the superscript `'²'` is not a decimal digit
(Unicode category No, rejected by `str.isdecimal`), yet the guard's
`str.isdigit` accepts it (`Numeric_Type` Digit), so on `"12²"`
`make_request` passes the guard and consults the network instead of
returning absent. -/
theorem c4_counterexample :
    pyDecimalChar '²' = false ∧
    pyDigitChar '²' = true ∧
    make_request (fun _ => some (Json.num 1)) "12²" = (some (Json.num 1), true) :=
  ⟨rfl, rfl, rfl⟩

/-- C4 amended: an identifier that is empty or contains a character not
accepted by Python's per-character `str.isdigit` test (a character that
is neither a Unicode decimal digit nor a digit-typed character) is
rejected by `make_request` before the session is touched: the result is
absent and the network-called flag is false, for every network oracle (so
no network call and no exception). -/
theorem c4_invalid_msisdn_rejected (net : String → Option Json)
    (msisdn : String)
    (h : msisdn = "" ∨ ∃ c ∈ msisdn.data, pyDigitChar c = false) :
    make_request net msisdn = (none, false) := by
  rcases h with h | ⟨c, hc, hcd⟩
  · subst h; rfl
  · have hall : msisdn.data.all pyDigitChar = false :=
      List.all_eq_false.mpr ⟨c, hc, by simp [hcd]⟩
    simp [make_request, pyIsdigit, hall]

/-- Witness for C4 at a concrete input. -/
theorem c4_witness :
    make_request (fun _ => some Json.null) "12a" = (none, false) :=
  c4_invalid_msisdn_rejected (fun _ => some Json.null) "12a"
    (Or.inr ⟨'a', by decide, by decide⟩)

/-- C8 fails as stated: on a column whose every value is non-numeric the
code raises `ValueError` (`No valid MSISDNs found`) instead of returning
the (empty) filtered list the claim asks for. -/
theorem c8_counterexample :
    read_msisdns ["abc"] = .error ReadError.noData ∧
    (["abc"].map pyStrip).filter pyIsdigit = [] :=
  ⟨rfl, rfl⟩

/-- C8 amended: provided at least one value survives the filter, `read`
returns exactly the whitespace-stripped values accepted by `str.isdigit`
(non-empty, every character a Unicode decimal digit or digit-typed
character), in source order; a column with no surviving value fails with
the no-data error instead. -/
theorem c8_filter_digits (cells : List String)
    (h : (cells.map pyStrip).filter pyIsdigit ≠ []) :
    read_msisdns cells = .ok ((cells.map pyStrip).filter pyIsdigit) := by
  simp [read_msisdns, h]

/-- Witness for C8 at a concrete input. -/
theorem c8_witness : read_msisdns [" 77 "] = .ok ["77"] :=
  c8_filter_digits [" 77 "] (by decide)

/-- C9 fails as stated: with key path `"msisdn"` and a successful fetch,
the extraction loop overwrites the row's `msisdn` field, so it no longer
equals the identifier. -/
theorem c9_counterexample :
    process_all_msisdns (fun _ => some (Json.obj [("x", Json.num 1)])) ["5"] ["msisdn"]
      = [[("msisdn", Json.null)]] ∧
    Json.null ≠ Json.str "5" :=
  ⟨rfl, fun h => nomatch h⟩

/-- C9 amended: the orchestrator yields exactly one row per identifier, in
input order (row `i` is the extraction for identifier `i`); provided
`"msisdn"` is not among the requested key paths, each row's `msisdn` field
equals its identifier whether or not the fetch succeeds, and a failed
fetch yields a row mapping every requested key path to null while the
batch continues. -/
theorem c9_batch_rows (net : String → Option Json) (msisdns keys : List String)
    (hm : "msisdn" ∉ keys) :
    (process_all_msisdns net msisdns keys).length = msisdns.length ∧
    (∀ i : Nat, (process_all_msisdns net msisdns keys)[i]?
        = (msisdns[i]?).map (fun m => extract_data (make_request net m).1 keys m)) ∧
    (∀ (i : Nat) (m : String), msisdns[i]? = some m →
        rowGet (((process_all_msisdns net msisdns keys)[i]?).getD []) "msisdn"
          = some (Json.str m)) ∧
    (∀ (i : Nat) (m : String), msisdns[i]? = some m →
        (make_request net m).1 = none →
        ∀ k ∈ keys,
          rowGet (((process_all_msisdns net msisdns keys)[i]?).getD []) k
            = some Json.null) := by
  have hpos : ∀ i : Nat, (process_all_msisdns net msisdns keys)[i]?
      = (msisdns[i]?).map (fun m => extract_data (make_request net m).1 keys m) := by
    intro i
    simp [process_all_msisdns]
  refine ⟨by simp [process_all_msisdns], hpos, ?_, ?_⟩
  · intro i m hi
    rw [hpos i, hi]
    exact rowGet_extract_msisdn _ keys m hm
  · intro i m hi hnone k hk
    rw [hpos i, hi]
    show rowGet (extract_data (make_request net m).1 keys m) k = some Json.null
    rw [hnone]
    simpa [extract_data] using
      foldl_dictInsert_mem (fun _ => Json.null) keys [("msisdn", Json.str m)] k hk

/-- Witness for C9 at a concrete input (failing fetch). -/
theorem c9_witness :
    rowGet (((process_all_msisdns (fun _ => none) ["55"] ["a"])[0]?).getD [])
        "msisdn" = some (Json.str "55") :=
  (c9_batch_rows (fun _ => none) ["55"] ["a"] (by decide)).2.2.1 0 "55" rfl

/-! Helper lemmas for URL validation. -/

theorem urlparse_http_data (t : List Char) :
    urlparse (String.mk ('h' :: 't' :: 't' :: 'p' :: ':' :: '/' :: '/' :: t))
      = ⟨"http", String.mk (t.takeWhile (fun c => !(c == '/' || c == '?' || c == '#')))⟩ :=
  rfl

theorem urlparse_https_data (t : List Char) :
    urlparse (String.mk ('h' :: 't' :: 't' :: 'p' :: 's' :: ':' :: '/' :: '/' :: t))
      = ⟨"https", String.mk (t.takeWhile (fun c => !(c == '/' || c == '?' || c == '#')))⟩ :=
  rfl

theorem scheme_of_http (u : String) (h : pyStartswith u "http://" = true) :
    (urlparse u).scheme = "http" := by
  have hp : "http://".data <+: u.data :=
    List.isPrefixOf_iff_prefix.mp (by simpa [pyStartswith] using h)
  obtain ⟨t, ht⟩ := hp
  obtain ⟨cs⟩ := u
  have hcs : cs = 'h' :: 't' :: 't' :: 'p' :: ':' :: '/' :: '/' :: t := by
    have h2 : ('h' :: 't' :: 't' :: 'p' :: ':' :: '/' :: '/' :: t : List Char) = cs := ht
    exact h2.symm
  subst hcs
  rw [urlparse_http_data]

theorem scheme_of_https (u : String) (h : pyStartswith u "https://" = true) :
    (urlparse u).scheme = "https" := by
  have hp : "https://".data <+: u.data :=
    List.isPrefixOf_iff_prefix.mp (by simpa [pyStartswith] using h)
  obtain ⟨t, ht⟩ := hp
  obtain ⟨cs⟩ := u
  have hcs : cs = 'h' :: 't' :: 't' :: 'p' :: 's' :: ':' :: '/' :: '/' :: t := by
    have h2 : ('h' :: 't' :: 't' :: 'p' :: 's' :: ':' :: '/' :: '/' :: t : List Char) = cs := ht
    exact h2.symm
  subst hcs
  rw [urlparse_https_data]

/-- C3 fails as stated: `"ftp://host/x"` is a well-formed
`scheme://host[...]` string (urlparse yields scheme `ftp`, host `host`),
yet construction fails because of the additional `http(s)` requirement. -/
theorem c3_counterexample :
    urlparse "ftp://host/x" = ⟨"ftp", "host"⟩ ∧
    validate_url "ftp://host/x" = .error () :=
  ⟨rfl, rfl⟩

/-- C3 amended: a base URL whose parse lacks a scheme or a host is
rejected at construction time; a base URL that (after stripping trailing
`'&'`/`'?'`) starts with `http://` or `https://` and parses with a
non-empty host is accepted, and the stored base URL is the input minus the
trailing `'&'`/`'?'` characters. -/
theorem c3_url_validation (url : String) :
    ((urlparse (pyRstrip url ['&', '?'])).scheme = "" ∨
        (urlparse (pyRstrip url ['&', '?'])).netloc = "" →
      validate_url url = .error ()) ∧
    ((pyStartswith (pyRstrip url ['&', '?']) "http://" = true ∨
        pyStartswith (pyRstrip url ['&', '?']) "https://" = true) →
      (urlparse (pyRstrip url ['&', '?'])).netloc ≠ "" →
      validate_url url = .ok (pyRstrip url ['&', '?'])) := by
  constructor
  · intro h
    have hcond : ((urlparse (pyRstrip url ['&', '?'])).scheme.isEmpty ||
        (urlparse (pyRstrip url ['&', '?'])).netloc.isEmpty) = true := by
      rcases h with h | h <;> simp [h, String.isEmpty_iff]
    simp [validate_url, hcond]
  · intro hs hn
    have hscheme : (urlparse (pyRstrip url ['&', '?'])).scheme.isEmpty = false := by
      rcases hs with h | h
      · rw [scheme_of_http _ h]; rfl
      · rw [scheme_of_https _ h]; rfl
    have hnet : (urlparse (pyRstrip url ['&', '?'])).netloc.isEmpty = false := by
      cases hh : (urlparse (pyRstrip url ['&', '?'])).netloc.isEmpty
      · rfl
      · exact absurd ((String.isEmpty_iff _).mp hh) hn
    have hsw : (pyStartswith (pyRstrip url ['&', '?']) "http://" ||
        pyStartswith (pyRstrip url ['&', '?']) "https://") = true := by
      rcases hs with h | h <;> simp [h]
    simp [validate_url, hscheme, hnet, hsw]

/-- Witness for C3 at concrete inputs: a URL missing its scheme is
rejected, and a well-formed https URL is accepted with its trailing
`'?'`/`'&'` stripped. -/
theorem c3_witness :
    validate_url "invalid-url" = .error () ∧
    validate_url "https://example.com/api?&" = .ok "https://example.com/api" :=
  ⟨(c3_url_validation "invalid-url").1 (Or.inl rfl),
   (c3_url_validation "https://example.com/api?&").2 (Or.inr rfl)
     (by intro h; exact nomatch (show ("example.com" : String) = "" from h))⟩

theorem retryLoop_bound (cfg : RetryStrategy) (method : String)
    (statuses : Nat → Nat) :
    ∀ (fuel attempt : Nat),
      (retryLoop cfg method statuses fuel attempt).1 ≤ attempt + fuel := by
  intro fuel
  induction fuel with
  | zero => intro attempt; simp [retryLoop]
  | succ n ih =>
      intro attempt
      by_cases h : isRetryable cfg method (statuses attempt) = true
      · rw [retryLoop, if_pos h]
        have := ih (attempt + 1)
        omega
      · rw [retryLoop, if_neg h]
        simp

/-- C5: the session's retry policy allows at most 3 retry attempts per
request (`total = 3`), waits `backoff_factor * 2 ^ i = 1, 2, 4` time units
before the successive retries (`backoff_factor = 1`), retries only when
the status code is one of 500, 502, 503, 504 and the method is in the
allow list, every allowed method being idempotent; the caller receives
only the final status. -/
theorem c5_retry_policy :
    retry_strategy.total = 3 ∧
    retry_strategy.backoff_factor = 1 ∧
    backoffSchedule retry_strategy = [1, 2, 4] ∧
    (∀ (method : String) (statuses : Nat → Nat),
        (performRequest retry_strategy method statuses).1 ≤ 3) ∧
    (∀ (method : String) (statuses : Nat → Nat),
        isRetryable retry_strategy method (statuses 0) = false →
        performRequest retry_strategy method statuses = (0, statuses 0)) ∧
    (∀ (method : String) (status : Nat),
        isRetryable retry_strategy method status = true ↔
          (method ∈ (["GET", "HEAD", "OPTIONS"] : List String) ∧
            status ∈ ([500, 502, 503, 504] : List Nat))) ∧
    (∀ m ∈ retry_strategy.allowed_methods, m ∈ idempotentMethods) := by
  refine ⟨rfl, rfl, rfl, ?_, ?_, ?_, ?_⟩
  · intro method statuses
    simpa using retryLoop_bound retry_strategy method statuses 3 0
  · intro method statuses h
    show retryLoop retry_strategy method statuses 3 0 = (0, statuses 0)
    rw [retryLoop, if_neg (by simp [h])]
  · intro method status
    simp [isRetryable, retry_strategy, List.contains, List.elem_iff]
  · intro m hm
    have hm' : m = "GET" ∨ m = "HEAD" ∨ m = "OPTIONS" := by
      simpa [retry_strategy] using hm
    rcases hm' with h | h | h <;> subst h <;> decide

/-- Witness for C5 at a concrete input: a non-allowed method is not
retried even on a 500. -/
theorem c5_witness :
    performRequest retry_strategy "POST" (fun _ => 500) = (0, 500) :=
  c5_retry_policy.2.2.2.2.1 "POST" (fun _ => 500) (by decide)

end Extractor
